import Mathlib

/-!
Shallow embedding of the flask-demo subscription-billing backend
(src/models.py, src/app.py, src/payment_service.py, src/dunning_service.py).

Modelling conventions.

* Timestamps are integers counting seconds. The system is single-request and
  synchronous, so the several `datetime.utcnow()` calls made while serving one
  request all observe the same instant `now`, which each handler receives as a
  parameter. A span of k days is `k * secondsPerDay`, and the `.days` field of
  a timedelta is flooring division by `secondsPerDay`, matching Python's
  normalization of negative spans.
* Money (`db.Float` columns) is modelled as exact rationals; the `:.2f`
  formatting applied when a number is rendered into an email body is
  presentation only and is not modelled.
* `uuid.uuid4()` is modelled as a fresh-value supply: the store carries a
  `nextToken` counter and each call consumes one value, never repeated.
* `random.random()` and `random.randint(1000, 9999)` are modelled as explicit
  draws `r : Rat` and `tid : Nat` passed to the gateway.
* Email delivery (the SMTP session in app.py's `send_email`) is an oracle
  `transport : Notification -> Bool`; a transport exception is the same as a
  `False` outcome, because `send_email` catches every exception and returns
  `False`. The f-string email bodies are modelled structurally: each
  `Notification` constructor carries exactly the values the corresponding
  f-string interpolates.
* Python `str` values sliced by position (the card number) are modelled as
  `List Char`; strings merely compared for equality stay `String`.
-/

/-- Seconds in one day: timedelta spans are converted to seconds. -/
def secondsPerDay : Int := 86400

/-- Row of the customer table (models.py, class Customer). -/
structure Customer where
  id : Nat
  email : String
  name : String
  role : String
deriving Repr, DecidableEq

/-- Row of the payment_method table (models.py, class PaymentMethod).
`card_number` holds what `add_payment_method` stored (the `[-4:]` slice of the
submitted card number); `token` is the simulated tokenization. -/
structure PaymentMethod where
  id : Nat
  customer_id : Nat
  card_number : List Char
  token : Nat
deriving Repr, DecidableEq

/-- Row of the subscription table (models.py, class Subscription). -/
structure Subscription where
  id : Nat
  customer_id : Nat
  plan_name : String
  price : Rat
  billing_interval : String
  start_date : Int
  end_date : Option Int
  status : String
deriving Repr, DecidableEq

/-- Row of the invoice table (models.py, class Invoice). -/
structure Invoice where
  id : Nat
  customer_id : Nat
  subscription_id : Nat
  amount : Rat
  status : String
  due_date : Int
deriving Repr, DecidableEq

/-- The SQLite store behind `db` in app.py. `nextId` models the autoincrement
primary-key supply shared by the tables, `nextToken` the `uuid.uuid4()`
supply. -/
structure DB where
  customers : List Customer
  payment_methods : List PaymentMethod
  subscriptions : List Subscription
  invoices : List Invoice
  nextId : Nat
  nextToken : Nat
deriving Repr, DecidableEq

/-- The empty store right after `db.create_all()`. -/
def emptyDB : DB := ⟨[], [], [], [], 1, 0⟩

/-- Outbound email content. Each constructor carries the values the
corresponding f-string in app.py or dunning_service.py interpolates. -/
inductive Notification where
  | invoiceNote (toEmail : String) (invoiceId : Nat) (planName : String)
      (amount : Rat) (dueDate : Int)
  | cancelNote (toEmail : String) (proratedAmount : Rat)
  | dunningNote (toEmail : String) (amount : Rat) (retryDate : Int)
deriving Repr, DecidableEq

/-- app.py `send_email`: attempts SMTP delivery and reports whether it
succeeded. Every transport exception is caught and becomes `false`, so the
call itself never raises; the SMTP layer is the oracle `transport`. -/
def send_email (transport : Notification → Bool) (note : Notification) : Bool :=
  transport note

/-- `Customer.query.get` by primary key. -/
def findCustomer (db : DB) (customer_id : Nat) : Option Customer :=
  db.customers.find? (fun c => c.id == customer_id)

/-- `PaymentMethod.query.get` by primary key. -/
def findPaymentMethod (db : DB) (payment_method_id : Nat) : Option PaymentMethod :=
  db.payment_methods.find? (fun m => m.id == payment_method_id)

/-- `Subscription.query.get` by primary key. -/
def findSubscription (db : DB) (subscription_id : Nat) : Option Subscription :=
  db.subscriptions.find? (fun s => s.id == subscription_id)

/-- The SQLAlchemy relationship `subscription.customer` followed by `.email`:
the owning customer's address (empty if the foreign key dangles). -/
def customerEmail (db : DB) (customer_id : Nat) : String :=
  match findCustomer db customer_id with
  | some c => c.email
  | none => ""

/-- app.py `create_customer` (POST /api/customers): insert a row, commit,
return it with a 201. -/
def create_customer (db : DB) (email name role : String) : DB × Customer :=
  let c : Customer := ⟨db.nextId, email, name, role⟩
  ({ db with customers := db.customers ++ [c], nextId := db.nextId + 1 }, c)

/-- Python slice `s[-4:]`: the last four characters, or the whole string when
it is shorter than four. -/
def lastFour (s : List Char) : List Char := s.drop (s.length - 4)

/-- app.py `add_payment_method` (POST /api/customers/id/payment_methods):
404 when the customer is absent; otherwise store a PaymentMethod holding the
`[-4:]` slice of the submitted card number and a freshly generated token, and
answer 201. Returns the store, the HTTP status, and the stored row. -/
def add_payment_method (db : DB) (customer_id : Nat) (card_number : List Char) :
    DB × Nat × Option PaymentMethod :=
  match findCustomer db customer_id with
  | none => (db, 404, none)
  | some _ =>
    let pm : PaymentMethod := ⟨db.nextId, customer_id, lastFour card_number, db.nextToken⟩
    ({ db with payment_methods := db.payment_methods ++ [pm],
               nextId := db.nextId + 1, nextToken := db.nextToken + 1 },
     201, some pm)

/-- Result dictionary of the mock gateway. -/
inductive GatewayResult where
  | success (transaction_id : Nat)
  | failed (error : String)
deriving Repr, DecidableEq

/-- payment_service.py `mock_payment_gateway`: succeeds exactly when the draw
`r` of `random.random()` is below 0.7, carrying the drawn transaction id;
otherwise declines with the fixed reason. The `token` and `amount` arguments
are received but never inspected, and no store is touched. -/
def mock_payment_gateway (r : Rat) (tid : Nat) (token : Nat) (amount : Rat) :
    GatewayResult :=
  if r < 7/10 then .success tid else .failed "insufficient_funds"

/-- payment_service.py `process_payment`: forwards the stored token. -/
def process_payment (r : Rat) (tid : Nat) (payment_method : PaymentMethod)
    (amount : Rat) : GatewayResult :=
  mock_payment_gateway r tid payment_method.token amount

/-- dunning_service.py `send_email`: prints and returns True for every input;
it consults no transport and cannot fail or raise. -/
def dunning_send_email (note : Notification) : Bool :=
  true

/-- dunning_service.py `handle_failed_payment`: computes the retry date two
days out, prints the schedule (persisted nowhere), and sends one dunning
email through the module's own `send_email`. Returns the retry date and the
attempted notification paired with its delivery result. -/
def handle_failed_payment (now : Int) (customer : Customer)
    (payment_method : PaymentMethod) (amount : Rat) :
    Int × List (Notification × Bool) :=
  let retry_date := now + 2 * secondsPerDay
  let note := Notification.dunningNote customer.email amount retry_date
  (retry_date, [(note, dunning_send_email note)])

/-- app.py `process_payment_route` (POST /api/payments). A failing
`get_or_404` aborts the handler with a 404 response. Returns the store (this
route never writes it), the attempted notifications with delivery results,
the HTTP status, and how many times `handle_failed_payment` ran. -/
def process_payment_route (now : Int) (r : Rat) (tid : Nat) (db : DB)
    (customer_id : Nat) (amount : Rat) (payment_method_id : Nat) :
    DB × List (Notification × Bool) × Nat × Nat :=
  match findPaymentMethod db payment_method_id with
  | none => (db, [], 404, 0)
  | some payment_method =>
    match process_payment r tid payment_method amount with
    | .success _ => (db, [], 200, 0)
    | .failed _ =>
      match findCustomer db customer_id with
      | none => (db, [], 404, 0)
      | some customer =>
        (db, (handle_failed_payment now customer payment_method amount).2, 400, 1)

/-- app.py `generate_invoice`: insert a pending invoice due seven days out,
commit, send the invoice email through app.py's `send_email`. -/
def generate_invoice (transport : Notification → Bool) (now : Int) (db : DB)
    (customer : Customer) (subscription : Subscription) (amount : Rat) :
    DB × Invoice × List (Notification × Bool) :=
  let invoice : Invoice :=
    ⟨db.nextId, customer.id, subscription.id, amount, "pending",
     now + 7 * secondsPerDay⟩
  let note := Notification.invoiceNote customer.email invoice.id
    subscription.plan_name amount invoice.due_date
  ({ db with invoices := db.invoices ++ [invoice], nextId := db.nextId + 1 },
   invoice, [(note, send_email transport note)])

/-- app.py `create_subscription` (POST /api/subscriptions): 404 when the
customer is absent; otherwise insert an active subscription starting now with
no end date, commit, then generate its invoice. Returns the store, the
attempted notifications, the HTTP status, and the new subscription and
invoice ids. -/
def create_subscription (transport : Notification → Bool) (now : Int) (db : DB)
    (customer_id : Nat) (plan_name : String) (price : Rat)
    (billing_interval : String) :
    DB × List (Notification × Bool) × Nat × Option (Nat × Nat) :=
  match findCustomer db customer_id with
  | none => (db, [], 404, none)
  | some customer =>
    let subscription : Subscription :=
      ⟨db.nextId, customer.id, plan_name, price, billing_interval, now, none,
       "active"⟩
    let db1 : DB :=
      { db with subscriptions := db.subscriptions ++ [subscription],
                nextId := db.nextId + 1 }
    let out := generate_invoice transport now db1 customer subscription price
    (out.1, out.2.2, 201, some (subscription.id, out.2.1.id))

/-- Python `(now - start).days`: whole elapsed days, flooring division. -/
def elapsedDays (now start : Int) : Int := Int.fdiv (now - start) secondsPerDay

/-- Mutation of the fetched subscription row followed by `commit`: the row
with the updated value's primary key takes the updated value. -/
def saveSubscription (subs : List Subscription) (sub : Subscription) :
    List Subscription :=
  subs.map (fun s => if s.id == sub.id then sub else s)

/-- app.py `cancel_subscription` (POST /api/subscriptions/id/cancel): 404
when absent; otherwise set status canceled and end date now, compute
days_remaining on a flat 30-day cycle from the original start date, email a
prorated refund notice exactly when days_remaining is positive, and commit.
Returns the store, the attempted notifications, and the HTTP status. -/
def cancel_subscription (transport : Notification → Bool) (now : Int) (db : DB)
    (subscription_id : Nat) : DB × List (Notification × Bool) × Nat :=
  match findSubscription db subscription_id with
  | none => (db, [], 404)
  | some subscription =>
    let updated : Subscription :=
      { subscription with status := "canceled", end_date := some now }
    let days_remaining : Int := 30 - elapsedDays now subscription.start_date
    let notes : List (Notification × Bool) :=
      if 0 < days_remaining then
        let prorated_amount : Rat := (days_remaining : Rat) / 30 * subscription.price
        let note := Notification.cancelNote
          (customerEmail db subscription.customer_id) prorated_amount
        [(note, send_email transport note)]
      else []
    ({ db with subscriptions := saveSubscription db.subscriptions updated },
     notes, 200)

/-- Spec section 3 invariant for one subscription row: end_date is set iff
the status is canceled. -/
def subInvariant (s : Subscription) : Prop :=
  s.end_date.isSome ↔ s.status = "canceled"

instance (s : Subscription) : Decidable (subInvariant s) := by
  unfold subInvariant
  infer_instance

/-- Store states reachable from the empty store through the app's write
operations. -/
inductive Reachable : DB → Prop where
  | empty : Reachable emptyDB
  | newCustomer (db : DB) (email name role : String) :
      Reachable db → Reachable (create_customer db email name role).1
  | newPaymentMethod (db : DB) (customer_id : Nat) (card_number : List Char) :
      Reachable db → Reachable (add_payment_method db customer_id card_number).1
  | newSubscription (transport : Notification → Bool) (now : Int) (db : DB)
      (customer_id : Nat) (plan_name : String) (price : Rat)
      (billing_interval : String) :
      Reachable db →
      Reachable (create_subscription transport now db customer_id plan_name
        price billing_interval).1
  | cancel (transport : Notification → Bool) (now : Int) (db : DB)
      (subscription_id : Nat) :
      Reachable db →
      Reachable (cancel_subscription transport now db subscription_id).1
  | payment (now : Int) (r : Rat) (tid : Nat) (db : DB) (customer_id : Nat)
      (amount : Rat) (payment_method_id : Nat) :
      Reachable db →
      Reachable (process_payment_route now r tid db customer_id amount
        payment_method_id).1

/-! Concrete stores used to exercise the operations on closed inputs. -/

/-- Transport whose every delivery succeeds. -/
def transportUp : Notification → Bool := fun _ => true

/-- Transport whose every delivery fails (SMTP down: the exception branch of
app.py's `send_email`). -/
def transportDown : Notification → Bool := fun _ => false

/-- Store holding one customer, as created by POST /api/customers. -/
def dbOneCustomer : DB := (create_customer emptyDB "a@b.com" "Alice" "user").1

/-- The customer row of `dbOneCustomer`. -/
def aliceRow : Customer := ⟨1, "a@b.com", "Alice", "user"⟩

/-- Store after also creating the Pro subscription (price 29.99, monthly) at
time 0: subscription id 2, invoice id 3. -/
def dbOneSub : DB :=
  (create_subscription transportUp 0 dbOneCustomer 1 "Pro" (2999/100)
    "monthly").1

/-- The subscription row of `dbOneSub`. -/
def proSub : Subscription := ⟨2, 1, "Pro", 2999/100, "monthly", 0, none, "active"⟩

/-- A payment-method row for the payment-route development. -/
def visaPM : PaymentMethod := ⟨2, 1, ['1', '1', '1', '1'], 0⟩

/-- Store holding one customer (id 1) and one payment method (id 2). -/
def dbOnePM : DB := ⟨[aliceRow], [visaPM], [], [], 3, 1⟩

/-- The spec scenario's card number 4111111111111111 as characters. -/
def visaDigits : List Char :=
  ['4', '1', '1', '1', '1', '1', '1', '1', '1', '1', '1', '1', '1', '1', '1',
   '1']

/-! Helper lemmas shared by several developments. -/

theorem find_saveSubscription (subs : List Subscription) (sid : Nat)
    (sub' : Subscription) (hid : sub'.id = sid)
    (h : (subs.find? (fun s => s.id == sid)).isSome) :
    (saveSubscription subs sub').find? (fun s => s.id == sid) = some sub' := by
  induction subs with
  | nil => simp at h
  | cons a as ih =>
    by_cases ha : a.id = sid
    · have hhead : (if (a.id == sub'.id) = true then sub' else a) = sub' := by
        simp [hid, ha]
      simp only [saveSubscription, List.map_cons, hhead]
      exact List.find?_cons_of_pos _ (by simp [hid])
    · have hhead : (if (a.id == sub'.id) = true then sub' else a) = a := by
        simp [hid, ha]
      simp only [saveSubscription, List.map_cons, hhead]
      rw [List.find?_cons_of_neg _ (by simp [ha])]
      rw [List.find?_cons_of_neg _ (by simp [ha])] at h
      exact ih h

theorem process_payment_route_fst (now : Int) (r : Rat) (tid : Nat) (db : DB)
    (customer_id : Nat) (amount : Rat) (payment_method_id : Nat) :
    (process_payment_route now r tid db customer_id amount
      payment_method_id).1 = db := by
  unfold process_payment_route
  cases hm : findPaymentMethod db payment_method_id with
  | none => rfl
  | some pm =>
    cases hr : process_payment r tid pm amount with
    | success t => simp [hr]
    | failed e =>
      cases hc : findCustomer db customer_id with
      | none => simp [hr, hc]
      | some c => simp [hr, hc]

/-! Claim developments. -/

/-- C1: with an existing customer, a positive price, and a monthly or yearly
interval, `create_subscription` appends exactly one active subscription
starting now with no end date, exactly one pending invoice for the full price
due seven days after the start date, attempts exactly one invoice
notification to the customer, and answers 201. -/
theorem createSubscription_invoice_spec (transport : Notification → Bool)
    (now : Int) (db : DB) (customer_id : Nat) (plan_name : String)
    (price : Rat) (billing_interval : String) (c : Customer)
    (hc : findCustomer db customer_id = some c) (hp : 0 < price)
    (hi : billing_interval = "monthly" ∨ billing_interval = "yearly") :
    (create_subscription transport now db customer_id plan_name price
        billing_interval).1.subscriptions =
      db.subscriptions ++
        [⟨db.nextId, c.id, plan_name, price, billing_interval, now, none,
          "active"⟩] ∧
    (create_subscription transport now db customer_id plan_name price
        billing_interval).1.invoices =
      db.invoices ++
        [⟨db.nextId + 1, c.id, db.nextId, price, "pending",
          now + 7 * secondsPerDay⟩] ∧
    (create_subscription transport now db customer_id plan_name price
        billing_interval).2.1.map Prod.fst =
      [Notification.invoiceNote c.email (db.nextId + 1) plan_name price
        (now + 7 * secondsPerDay)] ∧
    (create_subscription transport now db customer_id plan_name price
        billing_interval).2.2.1 = 201 := by
  unfold create_subscription generate_invoice
  rw [hc]
  exact ⟨rfl, rfl, rfl, rfl⟩

/-- C1 witness: the spec scenario (price 29.99, monthly) at a concrete
store. -/
theorem createSubscription_invoice_spec_witness :
    findCustomer dbOneCustomer 1 = some aliceRow ∧ (0 : Rat) < 2999/100 ∧
    ("monthly" = "monthly" ∨ "monthly" = "yearly") ∧
    ((create_subscription transportUp 0 dbOneCustomer 1 "Pro" (2999/100)
        "monthly").1.subscriptions =
      dbOneCustomer.subscriptions ++
        [⟨dbOneCustomer.nextId, aliceRow.id, "Pro", 2999/100, "monthly", 0,
          none, "active"⟩] ∧
    (create_subscription transportUp 0 dbOneCustomer 1 "Pro" (2999/100)
        "monthly").1.invoices =
      dbOneCustomer.invoices ++
        [⟨dbOneCustomer.nextId + 1, aliceRow.id, dbOneCustomer.nextId,
          2999/100, "pending", 0 + 7 * secondsPerDay⟩] ∧
    (create_subscription transportUp 0 dbOneCustomer 1 "Pro" (2999/100)
        "monthly").2.1.map Prod.fst =
      [Notification.invoiceNote aliceRow.email (dbOneCustomer.nextId + 1)
        "Pro" (2999/100) (0 + 7 * secondsPerDay)] ∧
    (create_subscription transportUp 0 dbOneCustomer 1 "Pro" (2999/100)
        "monthly").2.2.1 = 201) :=
  ⟨rfl, by norm_num, Or.inl rfl,
   createSubscription_invoice_spec transportUp 0 dbOneCustomer 1 "Pro"
     (2999/100) "monthly" aliceRow rfl (by norm_num) (Or.inl rfl)⟩

/-- C4: `handle_failed_payment` computes the retry date now + 2 days and
attempts exactly one dunning notification stating the failed amount and that
retry date, whose delivery reports success (so the function, a total Lean
map, never fails); and the payment route never writes the store, so no retry
schedule is persisted and no charge is re-attempted. -/
theorem handleFailedPayment_spec (now : Int) (customer : Customer)
    (payment_method : PaymentMethod) (amount : Rat) (db : DB) :
    handle_failed_payment now customer payment_method amount =
      (now + 2 * secondsPerDay,
       [(Notification.dunningNote customer.email amount
           (now + 2 * secondsPerDay), true)]) ∧
    (∀ r tid customer_id payment_method_id,
      (process_payment_route now r tid db customer_id amount
        payment_method_id).1 = db) :=
  ⟨rfl, fun r tid customer_id payment_method_id =>
    process_payment_route_fst now r tid db customer_id amount
      payment_method_id⟩

/-- C6: the gateway outcome depends only on the random draws, never on the
token, the amount, or any history: two calls consuming the same draws agree
for all tokens and amounts, the outcome is success with the drawn transaction
id exactly when the draw is below 0.7 and otherwise a decline carrying
insufficient_funds, and the function neither receives nor returns a store, so
it has no effect on stored state. -/
theorem gateway_outcome_independent (r : Rat) (tid : Nat)
    (token1 token2 : Nat) (amount1 amount2 : Rat) :
    mock_payment_gateway r tid token1 amount1 =
      mock_payment_gateway r tid token2 amount2 ∧
    mock_payment_gateway r tid token1 amount1 =
      (if r < 7/10 then .success tid else .failed "insufficient_funds") :=
  ⟨rfl, rfl⟩

/-- C10: the dunning module's own `send_email` returns true on every input,
so the single notification `handle_failed_payment` attempts always reports
success and no notification-failure outcome is reachable on the dunning
path. -/
theorem dunning_send_email_total_success (note : Notification) (now : Int)
    (customer : Customer) (payment_method : PaymentMethod) (amount : Rat) :
    dunning_send_email note = true ∧
    (handle_failed_payment now customer payment_method amount).2.map Prod.snd
      = [true] :=
  ⟨rfl, rfl⟩

theorem cancel_subscription_customers (transport : Notification → Bool)
    (now : Int) (db : DB) (subscription_id : Nat) :
    (cancel_subscription transport now db subscription_id).1.customers =
      db.customers := by
  unfold cancel_subscription
  cases h : findSubscription db subscription_id with
  | none => rfl
  | some sub => rfl

theorem customerEmail_cancel (transport : Notification → Bool) (now : Int)
    (db : DB) (subscription_id customer_id : Nat) :
    customerEmail (cancel_subscription transport now db subscription_id).1
        customer_id =
      customerEmail db customer_id := by
  unfold customerEmail findCustomer
  rw [cancel_subscription_customers]

theorem cancel_subscription_persists (transport : Notification → Bool)
    (now : Int) (db : DB) (subscription_id : Nat) (sub : Subscription)
    (hs : findSubscription db subscription_id = some sub) :
    findSubscription (cancel_subscription transport now db subscription_id).1
        subscription_id =
      some { sub with status := "canceled", end_date := some now } := by
  have hs' : db.subscriptions.find? (fun s => s.id == subscription_id)
      = some sub := hs
  have hid : sub.id = subscription_id := by
    have := List.find?_some hs'
    simpa using this
  unfold cancel_subscription
  rw [hs]
  unfold findSubscription
  exact find_saveSubscription db.subscriptions subscription_id _ hid
    (by rw [hs']; rfl)

theorem cancel_subscription_notes (transport : Notification → Bool)
    (now : Int) (db : DB) (subscription_id : Nat) (sub : Subscription)
    (hs : findSubscription db subscription_id = some sub) :
    (cancel_subscription transport now db subscription_id).2.1.map Prod.fst =
      (if 0 < 30 - elapsedDays now sub.start_date then
        [Notification.cancelNote (customerEmail db sub.customer_id)
          (((30 - elapsedDays now sub.start_date : Int) : Rat) / 30
            * sub.price)]
      else []) := by
  unfold cancel_subscription
  rw [hs]
  by_cases h : 0 < 30 - elapsedDays now sub.start_date <;>
    simp [h, send_email]

/-- C2: `cancel_subscription` on an existing subscription answers 200 and
sets status canceled and end date now regardless of the sign of
days_remaining; it attempts a refund notification exactly when
days_remaining = 30 minus the elapsed whole days since the start date is
strictly positive, and then the notified prorated amount is
days_remaining/30 times the price; at the boundary, 30 elapsed days produce
no notification and 29 elapsed days produce one with amount price/30. -/
theorem cancelSubscription_proration_spec (transport : Notification → Bool)
    (now : Int) (db : DB) (subscription_id : Nat) (sub : Subscription)
    (hs : findSubscription db subscription_id = some sub) :
    (cancel_subscription transport now db subscription_id).2.2 = 200 ∧
    (cancel_subscription transport now db subscription_id).1.subscriptions =
      saveSubscription db.subscriptions
        { sub with status := "canceled", end_date := some now } ∧
    findSubscription (cancel_subscription transport now db subscription_id).1
        subscription_id =
      some { sub with status := "canceled", end_date := some now } ∧
    (cancel_subscription transport now db subscription_id).2.1.map Prod.fst =
      (if 0 < 30 - elapsedDays now sub.start_date then
        [Notification.cancelNote (customerEmail db sub.customer_id)
          (((30 - elapsedDays now sub.start_date : Int) : Rat) / 30
            * sub.price)]
      else []) ∧
    (elapsedDays now sub.start_date = 30 →
      (cancel_subscription transport now db subscription_id).2.1 = []) ∧
    (elapsedDays now sub.start_date = 29 →
      (cancel_subscription transport now db subscription_id).2.1.map
          Prod.fst =
        [Notification.cancelNote (customerEmail db sub.customer_id)
          (1 / 30 * sub.price)]) := by
  refine ⟨?_, ?_, cancel_subscription_persists transport now db
    subscription_id sub hs, cancel_subscription_notes transport now db
    subscription_id sub hs, ?_, ?_⟩
  · unfold cancel_subscription
    rw [hs]
  · unfold cancel_subscription
    rw [hs]
  · intro h30
    unfold cancel_subscription
    rw [hs]
    simp [elapsedDays] at h30 ⊢
    simp [h30]
  · intro h29
    have := cancel_subscription_notes transport now db subscription_id sub hs
    rw [this, h29]
    norm_num

/-- C2 witness: canceling the concrete Pro subscription 29 days after its
start. -/
theorem cancelSubscription_proration_spec_witness :
    findSubscription dbOneSub 2 = some proSub ∧
    ((cancel_subscription transportUp (29 * secondsPerDay) dbOneSub 2).2.2
        = 200 ∧
    (cancel_subscription transportUp (29 * secondsPerDay) dbOneSub
        2).1.subscriptions =
      saveSubscription dbOneSub.subscriptions
        { proSub with status := "canceled",
                      end_date := some (29 * secondsPerDay) } ∧
    findSubscription
        (cancel_subscription transportUp (29 * secondsPerDay) dbOneSub 2).1
        2 =
      some { proSub with status := "canceled",
                         end_date := some (29 * secondsPerDay) } ∧
    (cancel_subscription transportUp (29 * secondsPerDay) dbOneSub
        2).2.1.map Prod.fst =
      (if 0 < 30 - elapsedDays (29 * secondsPerDay) proSub.start_date then
        [Notification.cancelNote (customerEmail dbOneSub proSub.customer_id)
          (((30 - elapsedDays (29 * secondsPerDay) proSub.start_date : Int)
            : Rat) / 30 * proSub.price)]
      else []) ∧
    (elapsedDays (29 * secondsPerDay) proSub.start_date = 30 →
      (cancel_subscription transportUp (29 * secondsPerDay) dbOneSub 2).2.1
        = []) ∧
    (elapsedDays (29 * secondsPerDay) proSub.start_date = 29 →
      (cancel_subscription transportUp (29 * secondsPerDay) dbOneSub
          2).2.1.map Prod.fst =
        [Notification.cancelNote
          (customerEmail dbOneSub proSub.customer_id)
          (1 / 30 * proSub.price)])) :=
  ⟨rfl, cancelSubscription_proration_spec transportUp (29 * secondsPerDay)
    dbOneSub 2 proSub rfl⟩

/-- C3: the store produced by `cancel_subscription`, and its HTTP status,
are the same under every transport outcome, and the canceled status and end
date are persisted in the returned store whatever the transport: a failed
notification (a false result, which also covers a raising SMTP session)
never aborts or rolls back the cancellation. -/
theorem cancelSubscription_persist_transport (t1 t2 : Notification → Bool)
    (now : Int) (db : DB) (subscription_id : Nat) (sub : Subscription)
    (hs : findSubscription db subscription_id = some sub) :
    (cancel_subscription t1 now db subscription_id).1 =
      (cancel_subscription t2 now db subscription_id).1 ∧
    (cancel_subscription t1 now db subscription_id).2.2 =
      (cancel_subscription t2 now db subscription_id).2.2 ∧
    findSubscription (cancel_subscription t1 now db subscription_id).1
        subscription_id =
      some { sub with status := "canceled", end_date := some now } := by
  refine ⟨?_, ?_, cancel_subscription_persists t1 now db subscription_id sub
    hs⟩
  · unfold cancel_subscription
    rw [hs]
  · unfold cancel_subscription
    rw [hs]

/-- C3 witness: a down transport against an up transport on the concrete
store. -/
theorem cancelSubscription_persist_transport_witness :
    findSubscription dbOneSub 2 = some proSub ∧
    ((cancel_subscription transportDown 0 dbOneSub 2).1 =
      (cancel_subscription transportUp 0 dbOneSub 2).1 ∧
    (cancel_subscription transportDown 0 dbOneSub 2).2.2 =
      (cancel_subscription transportUp 0 dbOneSub 2).2.2 ∧
    findSubscription (cancel_subscription transportDown 0 dbOneSub 2).1 2 =
      some { proSub with status := "canceled", end_date := some 0 }) :=
  ⟨rfl, cancelSubscription_persist_transport transportDown transportUp 0
    dbOneSub 2 proSub rfl⟩

/-- C8: cancellation is not idempotent: canceling an already-canceled
subscription re-runs the full effect, overwriting the end date with the new
time and recomputing proration against the original start date, so a second
cancellation while fewer than 30 whole days have elapsed since the start
attempts a refund notification again. -/
theorem cancelSubscription_not_idempotent (transport : Notification → Bool)
    (now1 now2 : Int) (db : DB) (subscription_id : Nat) (sub : Subscription)
    (hs : findSubscription db subscription_id = some sub)
    (helapsed : elapsedDays now2 sub.start_date < 30) :
    findSubscription (cancel_subscription transport now1 db subscription_id).1
        subscription_id =
      some { sub with status := "canceled", end_date := some now1 } ∧
    findSubscription
        (cancel_subscription transport now2
          (cancel_subscription transport now1 db subscription_id).1
          subscription_id).1 subscription_id =
      some { sub with status := "canceled", end_date := some now2 } ∧
    (cancel_subscription transport now2
        (cancel_subscription transport now1 db subscription_id).1
        subscription_id).2.1.map Prod.fst =
      [Notification.cancelNote (customerEmail db sub.customer_id)
        (((30 - elapsedDays now2 sub.start_date : Int) : Rat) / 30
          * sub.price)] := by
  have h1 := cancel_subscription_persists transport now1 db subscription_id
    sub hs
  refine ⟨h1, cancel_subscription_persists transport now2 _ subscription_id
    { sub with status := "canceled", end_date := some now1 } h1, ?_⟩
  have h3 := cancel_subscription_notes transport now2
    (cancel_subscription transport now1 db subscription_id).1 subscription_id
    { sub with status := "canceled", end_date := some now1 } h1
  rw [h3]
  dsimp only
  rw [if_pos (by omega : (0:Int) < 30 - elapsedDays now2 sub.start_date)]
  rw [customerEmail_cancel]

/-- C8 witness: re-canceling the concrete Pro subscription one day after a
first cancellation on day 0. -/
theorem cancelSubscription_not_idempotent_witness :
    findSubscription dbOneSub 2 = some proSub ∧
    elapsedDays secondsPerDay proSub.start_date < 30 ∧
    (findSubscription (cancel_subscription transportUp 0 dbOneSub 2).1 2 =
      some { proSub with status := "canceled", end_date := some 0 } ∧
    findSubscription
        (cancel_subscription transportUp secondsPerDay
          (cancel_subscription transportUp 0 dbOneSub 2).1 2).1 2 =
      some { proSub with status := "canceled",
                         end_date := some secondsPerDay } ∧
    (cancel_subscription transportUp secondsPerDay
        (cancel_subscription transportUp 0 dbOneSub 2).1 2).2.1.map
        Prod.fst =
      [Notification.cancelNote (customerEmail dbOneSub proSub.customer_id)
        (((30 - elapsedDays secondsPerDay proSub.start_date : Int) : Rat)
          / 30 * proSub.price)]) :=
  ⟨rfl, by decide,
   cancelSubscription_not_idempotent transportUp 0 secondsPerDay dbOneSub 2
     proSub rfl (by decide)⟩

/-- C7: every store reachable through the app's write operations satisfies
the invariant that a subscription's end date is set iff its status is
canceled: creation yields active rows without an end date, cancellation sets
status and end date together, and no operation breaks the biconditional. -/
theorem reachable_end_date_iff_canceled (db : DB) (h : Reachable db) :
    ∀ s ∈ db.subscriptions, subInvariant s := by
  induction h with
  | empty => intro s hsmem; simp [emptyDB] at hsmem
  | newCustomer db email name role _ ih => intro s hsmem; exact ih s hsmem
  | newPaymentMethod db customer_id card_number _ ih =>
    intro s hsmem
    unfold add_payment_method at hsmem
    cases hc : findCustomer db customer_id with
    | none => rw [hc] at hsmem; exact ih s hsmem
    | some c => rw [hc] at hsmem; exact ih s hsmem
  | newSubscription transport now db customer_id plan_name price
      billing_interval _ ih =>
    intro s hsmem
    unfold create_subscription generate_invoice at hsmem
    cases hc : findCustomer db customer_id with
    | none => rw [hc] at hsmem; exact ih s hsmem
    | some c =>
      rw [hc] at hsmem
      have hsmem' : s ∈ db.subscriptions ++
          [(⟨db.nextId, c.id, plan_name, price, billing_interval, now, none,
            "active"⟩ : Subscription)] := hsmem
      rcases List.mem_append.mp hsmem' with h' | h'
      · exact ih s h'
      · rw [List.mem_singleton.mp h']
        have hne : ("active" : String) ≠ "canceled" := by decide
        simp [subInvariant, hne]
  | cancel transport now db subscription_id _ ih =>
    intro s hsmem
    unfold cancel_subscription at hsmem
    cases hc : findSubscription db subscription_id with
    | none => rw [hc] at hsmem; exact ih s hsmem
    | some sub =>
      rw [hc] at hsmem
      have hsmem' : s ∈ saveSubscription db.subscriptions
          { sub with status := "canceled", end_date := some now } := hsmem
      rcases List.mem_map.mp hsmem' with ⟨a, ha, hfa⟩
      by_cases hid : (a.id == sub.id) = true
      · rw [← hfa]
        simp only [hid, if_true]
        simp [subInvariant]
      · rw [← hfa]
        simp only [hid, if_false]
        exact ih a ha
  | payment now r tid db customer_id amount payment_method_id _ ih =>
    intro s hsmem
    rw [process_payment_route_fst] at hsmem
    exact ih s hsmem

/-- C7 witness: the invariant at the concrete reachable store holding the
active Pro subscription. -/
theorem reachable_end_date_iff_canceled_witness :
    Reachable dbOneSub ∧ ∀ s ∈ dbOneSub.subscriptions, subInvariant s :=
  ⟨Reachable.newSubscription transportUp 0 dbOneCustomer 1 "Pro" (2999/100)
      "monthly"
      (Reachable.newCustomer emptyDB "a@b.com" "Alice" "user"
        Reachable.empty),
   reachable_end_date_iff_canceled dbOneSub
     (Reachable.newSubscription transportUp 0 dbOneCustomer 1 "Pro"
       (2999/100) "monthly"
       (Reachable.newCustomer emptyDB "a@b.com" "Alice" "user"
         Reachable.empty))⟩

theorem reachable_token_bound (db : DB) (h : Reachable db) :
    ∀ pm ∈ db.payment_methods, pm.token < db.nextToken := by
  induction h with
  | empty => intro pm hm; simp [emptyDB] at hm
  | newCustomer db email name role _ ih => intro pm hm; exact ih pm hm
  | newPaymentMethod db customer_id card_number _ ih =>
    intro pm hm
    unfold add_payment_method at hm ⊢
    cases hc : findCustomer db customer_id with
    | none => rw [hc] at hm; exact ih pm hm
    | some c =>
      rw [hc] at hm
      have hm' : pm ∈ db.payment_methods ++
          [(⟨db.nextId, customer_id, lastFour card_number, db.nextToken⟩ :
            PaymentMethod)] := hm
      show pm.token < db.nextToken + 1
      rcases List.mem_append.mp hm' with h' | h'
      · exact Nat.lt_succ_of_lt (ih pm h')
      · rw [List.mem_singleton.mp h']
        exact Nat.lt_succ_self _
  | newSubscription transport now db customer_id plan_name price
      billing_interval _ ih =>
    intro pm hm
    unfold create_subscription generate_invoice at hm ⊢
    cases hc : findCustomer db customer_id with
    | none => rw [hc] at hm; exact ih pm hm
    | some c => rw [hc] at hm; exact ih pm hm
  | cancel transport now db subscription_id _ ih =>
    intro pm hm
    unfold cancel_subscription at hm ⊢
    cases hc : findSubscription db subscription_id with
    | none => rw [hc] at hm; exact ih pm hm
    | some sub => rw [hc] at hm; exact ih pm hm
  | payment now r tid db customer_id amount payment_method_id _ ih =>
    intro pm hm
    rw [process_payment_route_fst] at hm
    have hgoal : (process_payment_route now r tid db customer_id amount
        payment_method_id).1.nextToken = db.nextToken := by
      rw [process_payment_route_fst]
    rw [hgoal]
    exact ih pm hm

/-- C9: on any reachable store, `add_payment_method` for an existing
customer stores exactly one new row whose card field is precisely the last-4
slice of the supplied number (at most four characters, and distinct from the
full number whenever that number is longer than four) and whose token is
freshly generated, different from the token of every previously stored
method. -/
theorem addPaymentMethod_last4_fresh_token (db : DB) (customer_id : Nat)
    (card_number : List Char) (c : Customer) (hdb : Reachable db)
    (hc : findCustomer db customer_id = some c) :
    ∃ pm, (add_payment_method db customer_id card_number).2.2 = some pm ∧
      pm.card_number = lastFour card_number ∧
      pm.card_number.length ≤ 4 ∧
      (4 < card_number.length → pm.card_number ≠ card_number) ∧
      (∀ q ∈ db.payment_methods, q.token ≠ pm.token) ∧
      (add_payment_method db customer_id card_number).1.payment_methods =
        db.payment_methods ++ [pm] := by
  refine ⟨⟨db.nextId, customer_id, lastFour card_number, db.nextToken⟩, ?_,
    rfl, ?_, ?_, ?_, ?_⟩
  · unfold add_payment_method
    rw [hc]
  · show (lastFour card_number).length ≤ 4
    simp only [lastFour, List.length_drop]
    omega
  · intro hlen heq
    have hcontra : (lastFour card_number).length = card_number.length := by
      rw [show lastFour card_number = card_number from heq]
    simp only [lastFour, List.length_drop] at hcontra
    omega
  · intro q hq
    have hbound := reachable_token_bound db hdb q hq
    show q.token ≠ db.nextToken
    omega
  · unfold add_payment_method
    rw [hc]

/-- C9 witness: storing the spec scenario's card 4111111111111111 for the
concrete customer. -/
theorem addPaymentMethod_last4_fresh_token_witness :
    Reachable dbOneCustomer ∧ findCustomer dbOneCustomer 1 = some aliceRow ∧
    (∃ pm, (add_payment_method dbOneCustomer 1 visaDigits).2.2 = some pm ∧
      pm.card_number = lastFour visaDigits ∧
      pm.card_number.length ≤ 4 ∧
      (4 < visaDigits.length → pm.card_number ≠ visaDigits) ∧
      (∀ q ∈ dbOneCustomer.payment_methods, q.token ≠ pm.token) ∧
      (add_payment_method dbOneCustomer 1 visaDigits).1.payment_methods =
        dbOneCustomer.payment_methods ++ [pm]) :=
  ⟨Reachable.newCustomer emptyDB "a@b.com" "Alice" "user" Reachable.empty,
   rfl,
   addPaymentMethod_last4_fresh_token dbOneCustomer 1 visaDigits aliceRow
     (Reachable.newCustomer emptyDB "a@b.com" "Alice" "user"
       Reachable.empty) rfl⟩

/-- C5 counterexample: with draw 0.9 the authorization of the stored method
is declined, yet because the request body's customer_id 99 matches no
customer, `process_payment_route` aborts with 404 after the declined attempt
and `handle_failed_payment` runs zero times, not exactly once. -/
theorem processPayment_declined_without_dunning :
    process_payment (9/10) 1234 visaPM 20 =
      GatewayResult.failed "insufficient_funds" ∧
    process_payment_route 0 (9/10) 1234 dbOnePM 99 20 2 =
      (dbOnePM, [], 404, 0) := by
  have hr : ¬ ((9:Rat)/10 < 7/10) := by norm_num
  have hfail : process_payment (9/10) 1234 visaPM 20 =
      GatewayResult.failed "insufficient_funds" := by
    unfold process_payment mock_payment_gateway
    rw [if_neg hr]
  refine ⟨hfail, ?_⟩
  unfold process_payment_route
  have hpm : findPaymentMethod dbOnePM 2 = some visaPM := rfl
  have hnc : findCustomer dbOnePM 99 = none := rfl
  simp only [hpm, hfail, hnc]

/-- C5 amended: when the request's payment method exists, a successful
authorization returns 200 with no dunning invocation, and a declined
authorization invokes `handle_failed_payment` exactly once provided the
request body's customer_id also resolves to a customer; when it does not,
the handler answers 404 after the declined attempt without invoking
dunning. -/
theorem processPayment_dunning_amended (now : Int) (r : Rat) (tid : Nat)
    (db : DB) (customer_id : Nat) (amount : Rat) (payment_method_id : Nat)
    (pm : PaymentMethod)
    (hpm : findPaymentMethod db payment_method_id = some pm) :
    (r < 7/10 →
      process_payment_route now r tid db customer_id amount
        payment_method_id = (db, [], 200, 0)) ∧
    (¬ r < 7/10 → ∀ c, findCustomer db customer_id = some c →
      process_payment_route now r tid db customer_id amount
        payment_method_id =
        (db, (handle_failed_payment now c pm amount).2, 400, 1)) ∧
    (¬ r < 7/10 → findCustomer db customer_id = none →
      process_payment_route now r tid db customer_id amount
        payment_method_id = (db, [], 404, 0)) := by
  unfold process_payment_route
  rw [hpm]
  refine ⟨?_, ?_, ?_⟩
  · intro hr
    simp [process_payment, mock_payment_gateway, hr]
  · intro hr c hc
    simp [process_payment, mock_payment_gateway, hr, hc]
  · intro hr hc
    simp [process_payment, mock_payment_gateway, hr, hc]

/-- C5 amended witness: the concrete store with a declining draw and a
resolving customer id. -/
theorem processPayment_dunning_amended_witness :
    findPaymentMethod dbOnePM 2 = some visaPM ∧
    (((9:Rat)/10 < 7/10 →
      process_payment_route 0 (9/10) 1234 dbOnePM 1 20 2 =
        (dbOnePM, [], 200, 0)) ∧
    (¬ (9:Rat)/10 < 7/10 → ∀ c, findCustomer dbOnePM 1 = some c →
      process_payment_route 0 (9/10) 1234 dbOnePM 1 20 2 =
        (dbOnePM, (handle_failed_payment 0 c visaPM 20).2, 400, 1)) ∧
    (¬ (9:Rat)/10 < 7/10 → findCustomer dbOnePM 1 = none →
      process_payment_route 0 (9/10) 1234 dbOnePM 1 20 2 =
        (dbOnePM, [], 404, 0))) :=
  ⟨rfl, processPayment_dunning_amended 0 (9/10) 1234 dbOnePM 1 20 2 visaPM
    rfl⟩
